import Mathlib

/-!
Verification of the golloom Go client library (an HTTP client for a local
language-model server).  The Go source is shallowly embedded: every public
method of `Client` becomes a pure Lean function from its arguments and the
observed transport outcome (the single `HTTPClient.Do` call it makes) to the
pair `(requests issued, result)`.  JSON byte-level encoding/decoding is the
Go standard library's work, so a response body is embedded as its decode
outcome; the repository's own logic (status-code branching, the bounded
JSON-lines status stream loop, request validation, URL construction) is
translated faithfully from the source.
-/

/-- A JSON value, used to record the wire body of requests whose Go body is a
map literal.  Go's `encoding/json` marshals map keys in sorted order, which is
mirrored where object literals are written below. -/
inductive Json where
  | null : Json
  | str : String → Json
  | num : Int → Json
  | bool : Bool → Json
  | arr : List Json → Json
  | obj : List (String × Json) → Json

/-- A dynamically typed Go value (`interface\x7b\x7d`), covering the dynamic types the
library's validation code distinguishes: `string`, `int`, `map[string]interface\x7b\x7d`,
`[]int`, `[]interface\x7b\x7d`, and anything else (tagged with its Go type name). -/
inductive GoValue where
  | str : String → GoValue
  | int : Int → GoValue
  | strMap : List (String × GoValue) → GoValue
  | intSlice : List Int → GoValue
  | anySlice : List GoValue → GoValue
  | other : String → GoValue

/-- The parts of Go's `url.URL` this library uses.  `ResolveReference` with a
path-only relative URL keeps the base's scheme and host and replaces the path. -/
structure URL where
  scheme : String
  host : String
  path : String
deriving DecidableEq

/-- Models `base.ResolveReference(&url.URL\x7bPath: p\x7d)`: an absolute-path
reference resolved against `base` keeps scheme and host and takes path `p`. -/
def URL.resolveReference (base : URL) (p : String) : URL :=
  { base with path := p }

/-- The `http.Client` configuration the library sets: the timeout, a Go
`time.Duration` (an `int64` count of nanoseconds). -/
structure GoHTTPClient where
  timeout : Int
deriving DecidableEq

/-- The library's `Client` struct: a base URL and an HTTP client. -/
structure Client where
  BaseURL : URL
  HTTPClient : GoHTTPClient
deriving DecidableEq

/-- Go's `time.Minute` in nanoseconds. -/
def timeMinute : Int := 60000000000

/-- Go `int64` multiplication (two's-complement wraparound). -/
def int64Mul (a b : Int) : Int :=
  (a * b + 2 ^ 63) % 2 ^ 64 - 2 ^ 63

/-- `NewClient` from `client.go`.  The call to the standard library's
`url.Parse(baseURL)` is embedded as its outcome `parseResult`; the function
fails exactly when parsing failed, and otherwise builds the client with the
parsed URL and a timeout of `minutes * time.Minute`. -/
def NewClient (parseResult : Except String URL) (minutes : Int) : Except String Client :=
  match parseResult with
  | Except.error e => Except.error e
  | Except.ok parsed =>
      Except.ok { BaseURL := parsed, HTTPClient := { timeout := int64Mul minutes timeMinute } }

/-- Modelled from the spec: the `Message` struct (role and content of one chat
message) is part of this repository but its defining file is not under src/;
only its uses (in `CreateModelRequest` and the example programs, which set
`Role` and `Content` string fields) are. -/
structure Message where
  Role : String
  Content : String

/-- Modelled from the spec: the `Chat` request struct is part of this
repository but its defining file is not under src/; the example callers build
it from a `Model` string and a `Messages` history. -/
structure Chat where
  Model : String
  Messages : List Message

/-- Modelled from the spec: the `ModelResponse` struct (the decoded JSON chat
response) is part of this repository but its defining file is not under src/;
`sendChatRequest` decodes into it and the example callers read `.Message.Content`. -/
structure ModelResponse where
  Model : String
  CreatedAt : String
  Message : Message
  Done : Bool

/-- `PromptInfo` from `delete.go`: the generate-request payload.  The Go
`interface\x7b\x7d` fields become `Option GoValue` (with `none` for `nil`),
`time`-free fields keep their types. -/
structure PromptInfo where
  Model : String
  Prompt : String
  Suffix : String
  System : String
  Template : String
  Images : List String
  Format : Option GoValue
  Options : List (String × GoValue)
  Stream : Option Bool
  Raw : Option Bool
  KeepAlive : String
  Context : Option GoValue

/-- `PromptResult` from `delete.go` (the decoded generate response).
`time.Time` is embedded as its decoded string form. -/
structure PromptResult where
  Model : String
  Response : String
  CreatedAt : String
  Context : Option GoValue
  Done : Bool
  DoneReason : String
  TotalDuration : Int
  LoadDuration : Int
  PromptEvalCount : Int
  PromptEvalDuration : Int
  EvalCount : Int
  EvalDuration : Int

/-- `ModelInfoResult` from the show-model file. -/
structure ModelInfoResult where
  Modelfile : String
  Parameters : String
  Template : String
  Details : List (String × GoValue)
  ModelInfo : List (String × GoValue)

/-- `EmbedResult` from `embed.go`. -/
structure EmbedResult where
  Model : String
  CreatedAt : String
  Embedding : Option GoValue

/-- The `Version` struct (version string and optional build time). -/
structure Version where
  Version : String
  BuildTime : String

/-- `ModelDetails` from the list-models file. -/
structure ModelDetails where
  Format : String
  Family : String
  Families : List String
  ParameterSize : String
  QuantizationLevel : String

/-- `ModelInfo` from the list-models file. -/
structure ModelInfo where
  Name : String
  ModifiedAt : String
  Size : Int
  Digest : String
  Details : ModelDetails

/-- `ModelList` from the list-models file. -/
structure ModelList where
  Models : List ModelInfo

/-- `ModelProcessStatus` from `proc_status.go`. -/
structure ModelProcessStatus where
  Models : List String

/-- `DeleteModelRequest` from `delete.go`. -/
structure DeleteModelRequest where
  Model : String

/-- `DeleteModelResult` from `delete.go`. -/
structure DeleteModelResult where
  StatusMessages : List String

/-- `PullModelResult` from `pull.go`. -/
structure PullModelResult where
  StatusMessages : List String

/-- `PushModelResult` from `push.go`. -/
structure PushModelResult where
  StatusMessages : List String

/-- `CopyModelResult` from `copy.go`. -/
structure CopyModelResult where
  StatusMessages : List String

/-- `CreateModelResult` from the create-model file. -/
structure CreateModelResult where
  StatusMessages : List String

/-- `CreateModelRequest` from the create-model file.  Go maps become
association lists, `interface\x7b\x7d` becomes `Option GoValue`. -/
structure CreateModelRequest where
  Model : String
  From : String
  Files : List (String × String)
  Adapters : List (String × String)
  Template : String
  License : Option GoValue
  System : String
  Parameters : List (String × GoValue)
  Messages : List Message
  Stream : Option Bool
  Quantize : String

/-- The body of an HTTP request as the library sends it.  `json` records the
JSON encoding of Go map literals; the `of...` constructors stand for the JSON
encoding (by `encoding/json`, standard library) of the given struct; `embed`
records the embed operation's mixed-value map symbolically; `octets` is a raw
`application/octet-stream` body; `empty` is a `nil` body (GET/HEAD requests). -/
inductive Body where
  | empty : Body
  | json : Json → Body
  | ofPrompt : PromptInfo → Body
  | ofCreate : CreateModelRequest → Body
  | ofDelete : DeleteModelRequest → Body
  | ofChat : Chat → Body
  | embed : String → String → List (String × GoValue) → Body
  | octets : String → Body

/-- One HTTP request issued by the library: method, resolved URL, and body. -/
structure RequestRecord where
  method : String
  url : URL
  body : Body

/-- The observable outcome of one request/response exchange whose body is
JSON-decoded into `α`: request construction (`http.NewRequestWithContext`)
failed, the transport (`HTTPClient.Do`) failed, or a response arrived with a
status code, raw body bytes, and the outcome of decoding the body into `α`.
A request is actually sent in the `doError` and `response` cases only. -/
inductive HttpOutcome (α : Type) where
  | buildError : String → HttpOutcome α
  | doError : String → HttpOutcome α
  | response : Nat → String → Except String α → HttpOutcome α

/-- The observable outcome of a streaming request: as `HttpOutcome`, but the
response body is a JSON-lines stream, embedded as the sequence of per-item
decode outcomes (each item either decodes to its `status` field or fails). -/
inductive StreamOutcome where
  | buildError : String → StreamOutcome
  | doError : String → StreamOutcome
  | response : Nat → String → List (Except String String) → StreamOutcome

/-- The observable outcome of a request whose response body is not decoded
(HEAD / blob upload): build failure, transport failure, or status plus raw body. -/
inductive RawOutcome where
  | buildError : String → RawOutcome
  | doError : String → RawOutcome
  | response : Nat → String → RawOutcome

/-- `sendRequest` from `helper.go`: POST/GET with a JSON body, then — unlike
the other three non-streaming helpers — a status-code gate: any status outside
[200, 300) becomes an error carrying the status and the raw response body, and
only 2xx responses are JSON-decoded into a `PromptResult`.  The unused receiver
carries no data relevant here (its transport is the `o` parameter). -/
def sendRequest (_c : Client) (method : String) (u : URL) (b : Body)
    (o : HttpOutcome PromptResult) : List RequestRecord × Except String PromptResult :=
  match o with
  | HttpOutcome.buildError e => ([], Except.error e)
  | HttpOutcome.doError e => ([⟨method, u, b⟩], Except.error e)
  | HttpOutcome.response s raw d =>
      ([⟨method, u, b⟩],
        if s < 200 ∨ 300 ≤ s then
          Except.error ("HTTP request failed with status " ++ toString s ++ ": " ++ raw)
        else d)

/-- `sendChatRequest` from `helper.go`: sends the request and decodes the body
into a `ModelResponse` without ever inspecting the status code. -/
def sendChatRequest (_c : Client) (method : String) (u : URL) (b : Body)
    (o : HttpOutcome ModelResponse) : List RequestRecord × Except String ModelResponse :=
  match o with
  | HttpOutcome.buildError e => ([], Except.error e)
  | HttpOutcome.doError e => ([⟨method, u, b⟩], Except.error e)
  | HttpOutcome.response _s _raw d => ([⟨method, u, b⟩], d)

/-- `sendShowRequest` from `helper.go`: decodes into `ModelInfoResult`,
never inspecting the status code. -/
def sendShowRequest (_c : Client) (method : String) (u : URL) (b : Body)
    (o : HttpOutcome ModelInfoResult) : List RequestRecord × Except String ModelInfoResult :=
  match o with
  | HttpOutcome.buildError e => ([], Except.error e)
  | HttpOutcome.doError e => ([⟨method, u, b⟩], Except.error e)
  | HttpOutcome.response _s _raw d => ([⟨method, u, b⟩], d)

/-- `sendEmbedRequest` from `helper.go`: decodes into `EmbedResult`,
never inspecting the status code. -/
def sendEmbedRequest (_c : Client) (method : String) (u : URL) (b : Body)
    (o : HttpOutcome EmbedResult) : List RequestRecord × Except String EmbedResult :=
  match o with
  | HttpOutcome.buildError e => ([], Except.error e)
  | HttpOutcome.doError e => ([⟨method, u, b⟩], Except.error e)
  | HttpOutcome.response _s _raw d => ([⟨method, u, b⟩], d)

/-- `maxMessages` from `sendStatusStreamRequest` in `helper.go`. -/
def maxMessages : Nat := 1000

/-- The `for dec.More() && len(msgs) < maxMessages` loop of
`sendStatusStreamRequest`: walk the stream while messages remain and fewer
than `maxMessages` have been collected; a decode failure aborts with an error,
otherwise each item's `status` string is appended. -/
def statusLoop : List (Except String String) → List String → Except String (List String)
  | [], msgs => Except.ok msgs
  | item :: rest, msgs =>
      if msgs.length < maxMessages then
        match item with
        | Except.error e => Except.error ("error decoding stream: " ++ e)
        | Except.ok s => statusLoop rest (msgs ++ [s])
      else Except.ok msgs

/-- `sendStatusStreamRequest` from `helper.go`: non-2xx statuses become an
error carrying the status and the body truncated to 512 (`io.LimitReader`,
modelled at character granularity); for 2xx the JSON-lines stream is read by
`statusLoop`, and if the collected message count has reached `maxMessages`
the whole call errors, otherwise the collected status strings are returned. -/
def sendStatusStreamRequest (_c : Client) (method : String) (u : URL) (b : Body)
    (o : StreamOutcome) : List RequestRecord × Except String (List String) :=
  match o with
  | StreamOutcome.buildError e => ([], Except.error e)
  | StreamOutcome.doError e => ([⟨method, u, b⟩], Except.error e)
  | StreamOutcome.response s raw items =>
      ([⟨method, u, b⟩],
        if s < 200 ∨ 300 ≤ s then
          Except.error ("HTTP request failed with status " ++ toString s ++ ": " ++ raw.take 512)
        else
          match statusLoop items [] with
          | Except.error e => Except.error e
          | Except.ok msgs =>
              if maxMessages ≤ msgs.length then
                Except.error "streaming response exceeded maximum allowed messages"
              else Except.ok msgs)

/-- The `Format` arm of `ValidatePromptInfo`: a non-nil `Format` must have
dynamic type `string` or `map[string]interface\x7b\x7d`. -/
def checkFormat : Option GoValue → Option String
  | none => none
  | some v =>
      match v with
      | GoValue.str _ => none
      | GoValue.strMap _ => none
      | _ => some "invalid type for Format field; must be string or map[string]interface\x7b\x7d"

/-- The element loop of the `[]interface\x7b\x7d` arm of `ValidatePromptInfo`:
the first element whose dynamic type is not `int` is reported with its index. -/
def checkContextElems : List GoValue → Nat → Option String
  | [], _ => none
  | v :: rest, idx =>
      match v with
      | GoValue.int _ => checkContextElems rest (idx + 1)
      | _ => some ("invalid type for Context at index " ++ toString idx ++ "; expected int")

/-- The `Context` arm of `ValidatePromptInfo`: a non-nil `Context` must be a
`[]int`, or a `[]interface\x7b\x7d` all of whose elements are `int`s. -/
def checkContext : Option GoValue → Option String
  | none => none
  | some v =>
      match v with
      | GoValue.intSlice _ => none
      | GoValue.anySlice vs => checkContextElems vs 0
      | _ => some "invalid type for Context field; expected []int or []interface\x7b\x7d of ints"

/-- `ValidatePromptInfo` from `delete.go`: checks `Format` first and returns
its error if any, then checks `Context`; `none` means the Go function
returned `nil`. -/
def PromptInfo.ValidatePromptInfo (req : PromptInfo) : Option String :=
  match checkFormat req.Format with
  | some e => some e
  | none => checkContext req.Context

/-- Helper for `strContains`: does `sub` occur in the list starting at some
position?  Mirrors the semantics of Go's `strings.Contains`. -/
def infixAt : List Char → List Char → Bool
  | sub, [] => sub.isEmpty
  | sub, c :: rest => sub.isPrefixOf (c :: rest) || infixAt sub rest

/-- Go's `strings.Contains(s, sub)`. -/
def strContains (s sub : String) : Bool :=
  infixAt sub.toList s.toList

/-- The UTF-8 byte sequence of one character, as natural numbers. -/
def utf8Bytes (c : Char) : List Nat :=
  let n := c.toNat
  if n < 128 then [n]
  else if n < 2048 then [192 ||| (n >>> 6), 128 ||| (n &&& 63)]
  else if n < 65536 then
    [224 ||| (n >>> 12), 128 ||| ((n >>> 6) &&& 63), 128 ||| (n &&& 63)]
  else
    [240 ||| (n >>> 18), 128 ||| ((n >>> 12) &&& 63), 128 ||| ((n >>> 6) &&& 63),
      128 ||| (n &&& 63)]

/-- Upper-case hexadecimal digit for a value below 16. -/
def upperHexDigit (n : Nat) : Char :=
  if n < 10 then Char.ofNat (48 + n) else Char.ofNat (55 + n)

/-- Go's `shouldEscape(b, encodePathSegment)` from `net/url`: a byte survives
unescaped exactly when it is alphanumeric, one of `-` `_` `.` `~`, or one of
the reserved characters `$` `&` `+` `:` `=` `@` that path segments keep. -/
def shouldEscapePathSegment (b : Nat) : Bool :=
  !((65 ≤ b && b ≤ 90) || (97 ≤ b && b ≤ 122) || (48 ≤ b && b ≤ 57) ||
    b == 45 || b == 95 || b == 46 || b == 126 ||
    b == 36 || b == 38 || b == 43 || b == 58 || b == 61 || b == 64)

/-- Percent-escape one byte if `shouldEscapePathSegment` says so. -/
def escapeByte (b : Nat) : List Char :=
  if shouldEscapePathSegment b then ['%', upperHexDigit (b / 16), upperHexDigit (b % 16)]
  else [Char.ofNat b]

/-- Go's `url.PathEscape`: percent-escape the UTF-8 bytes of `s` as a path
segment. -/
def pathEscape (s : String) : String :=
  String.mk (((s.toList.map utf8Bytes).flatten.map escapeByte).flatten)

/-- Go's `path.Join(a, b)` as used by `PushBlob`, at the granularity the
claims need: concatenation with a single separator (Go additionally
`path.Clean`s the result; no claim depends on that normalisation). -/
def pathJoin (a b : String) : String :=
  if b = "" then a else a ++ "/" ++ b

/-- `Generate` from `delete.go`: validate the `PromptInfo` first — a
validation error is returned with no HTTP request issued — then POST the
prompt to `/api/generate` via `sendRequest`. -/
def Client.Generate (c : Client) (req : PromptInfo) (o : HttpOutcome PromptResult) :
    Client × List RequestRecord × Except String PromptResult :=
  (c,
    match req.ValidatePromptInfo with
    | some e => ([], Except.error e)
    | none =>
        sendRequest c "POST" (c.BaseURL.resolveReference "/api/generate")
          (Body.ofPrompt req) o)

/-- `PullModel` from `pull.go`: one POST of `\x7b"model": model\x7d` to `/api/pull`
via the status-stream helper; the collected status messages are returned
unchanged in a `PullModelResult`. -/
def Client.PullModel (c : Client) (model : String) (o : StreamOutcome) :
    Client × List RequestRecord × Except String PullModelResult :=
  (c,
    let res := sendStatusStreamRequest c "POST" (c.BaseURL.resolveReference "/api/pull")
      (Body.json (Json.obj [("model", Json.str model)])) o
    (res.1, Except.map (fun msgs => { StatusMessages := msgs }) res.2))

/-- `PushModel` from `push.go`: one POST of `\x7b"model": model\x7d` to `/api/push`. -/
def Client.PushModel (c : Client) (model : String) (o : StreamOutcome) :
    Client × List RequestRecord × Except String PushModelResult :=
  (c,
    let res := sendStatusStreamRequest c "POST" (c.BaseURL.resolveReference "/api/push")
      (Body.json (Json.obj [("model", Json.str model)])) o
    (res.1, Except.map (fun msgs => { StatusMessages := msgs }) res.2))

/-- `CopyModel` from `copy.go`: one POST of the source/destination map to
`/api/copy` (Go marshals map keys sorted, so `destination` precedes `source`
on the wire). -/
def Client.CopyModel (c : Client) (source destination : String) (o : StreamOutcome) :
    Client × List RequestRecord × Except String CopyModelResult :=
  (c,
    let res := sendStatusStreamRequest c "POST" (c.BaseURL.resolveReference "/api/copy")
      (Body.json (Json.obj [("destination", Json.str destination), ("source", Json.str source)])) o
    (res.1, Except.map (fun msgs => { StatusMessages := msgs }) res.2))

/-- `DeleteModel` from `delete.go`: one POST of the `DeleteModelRequest` to
`/api/delete`. -/
def Client.DeleteModel (c : Client) (req : DeleteModelRequest) (o : StreamOutcome) :
    Client × List RequestRecord × Except String DeleteModelResult :=
  (c,
    let res := sendStatusStreamRequest c "POST" (c.BaseURL.resolveReference "/api/delete")
      (Body.ofDelete req) o
    (res.1, Except.map (fun msgs => { StatusMessages := msgs }) res.2))

/-- `CreateModel` from the create-model file: one POST of the JSON-encoded
`CreateModelRequest` to `/api/create`. -/
def Client.CreateModel (c : Client) (req : CreateModelRequest) (o : StreamOutcome) :
    Client × List RequestRecord × Except String CreateModelResult :=
  (c,
    let res := sendStatusStreamRequest c "POST" (c.BaseURL.resolveReference "/api/create")
      (Body.ofCreate req) o
    (res.1, Except.map (fun msgs => { StatusMessages := msgs }) res.2))

/-- `Embed` from `embed.go`: one POST of the model/input/options map to
`/api/embed` via `sendEmbedRequest`. -/
def Client.Embed (c : Client) (model input : String) (options : List (String × GoValue))
    (o : HttpOutcome EmbedResult) :
    Client × List RequestRecord × Except String EmbedResult :=
  (c,
    sendEmbedRequest c "POST" (c.BaseURL.resolveReference "/api/embed")
      (Body.embed model input options) o)

/-- `FetchModelInfo` from the show-model file: one POST of the model/verbose
map to `/api/show` via `sendShowRequest`. -/
def Client.FetchModelInfo (c : Client) (model : String) (verbose : Bool)
    (o : HttpOutcome ModelInfoResult) :
    Client × List RequestRecord × Except String ModelInfoResult :=
  (c,
    sendShowRequest c "POST" (c.BaseURL.resolveReference "/api/show")
      (Body.json (Json.obj [("model", Json.str model), ("verbose", Json.bool verbose)])) o)

/-- Modelled from the spec: the `Chat` method is part of this repository but
its defining file is not under src/ (only its helper `sendChatRequest` and
example callers are).  Per the spec, chat is a single public method mapping
to one HTTP request to the chat endpoint whose JSON response is decoded into
a `ModelResponse`. -/
def Client.Chat (c : Client) (req : Chat) (o : HttpOutcome ModelResponse) :
    Client × List RequestRecord × Except String ModelResponse :=
  (c,
    sendChatRequest c "POST" (c.BaseURL.resolveReference "/api/chat") (Body.ofChat req) o)

/-- `CheckBlobExists` from the blob file: digests containing `/` or `..` are
rejected up front with no request; otherwise one HEAD request goes to
`/api/blobs/` followed by the path-escaped digest, and the status maps
200 to `ok true`, 404 to `ok false`, anything else to an error.  (`ok false`
and `error e` correspond to Go's `(false, nil)` and `(false, err)`.) -/
def Client.CheckBlobExists (c : Client) (digest : String) (o : RawOutcome) :
    Client × List RequestRecord × Except String Bool :=
  (c,
    if strContains digest "/" || strContains digest ".." then
      ([], Except.error ("invalid digest: " ++ digest))
    else
      match o with
      | RawOutcome.buildError e => ([], Except.error e)
      | RawOutcome.doError e =>
          ([⟨"HEAD", c.BaseURL.resolveReference ("/api/blobs/" ++ pathEscape digest),
            Body.empty⟩], Except.error e)
      | RawOutcome.response s _raw =>
          ([⟨"HEAD", c.BaseURL.resolveReference ("/api/blobs/" ++ pathEscape digest),
            Body.empty⟩],
            if s = 200 then Except.ok true
            else if s = 404 then Except.ok false
            else Except.error ("unexpected status code: " ++ toString s)))

/-- `PushBlob` from the blob file: one POST of the raw blob data to
`/api/blobs/` joined with the digest; any status other than 201 becomes an
error carrying the body.  `none` is Go's `nil` error. -/
def Client.PushBlob (c : Client) (digest : String) (file : String) (o : RawOutcome) :
    Client × List RequestRecord × Option String :=
  (c,
    match o with
    | RawOutcome.buildError e => ([], some e)
    | RawOutcome.doError e =>
        ([⟨"POST", c.BaseURL.resolveReference (pathJoin "/api/blobs" digest),
          Body.octets file⟩], some e)
    | RawOutcome.response s raw =>
        ([⟨"POST", c.BaseURL.resolveReference (pathJoin "/api/blobs" digest),
          Body.octets file⟩],
          if s = 201 then none else some ("failed to push blob: " ++ raw)))

/-- `Version` from the version file: one GET to `/api/version` with nil body,
decoded into a `Version` with no status-code inspection. -/
def Client.Version (c : Client) (o : HttpOutcome Version) :
    Client × List RequestRecord × Except String Version :=
  (c,
    match o with
    | HttpOutcome.buildError e => ([], Except.error e)
    | HttpOutcome.doError e =>
        ([⟨"GET", c.BaseURL.resolveReference "/api/version", Body.empty⟩], Except.error e)
    | HttpOutcome.response _s _raw d =>
        ([⟨"GET", c.BaseURL.resolveReference "/api/version", Body.empty⟩], d))

/-- `ListModels` from the list-models file: one GET to `/api/tags`, decoded
into a `ModelList` with no status-code inspection. -/
def Client.ListModels (c : Client) (o : HttpOutcome ModelList) :
    Client × List RequestRecord × Except String ModelList :=
  (c,
    match o with
    | HttpOutcome.buildError e => ([], Except.error e)
    | HttpOutcome.doError e =>
        ([⟨"GET", c.BaseURL.resolveReference "/api/tags", Body.empty⟩], Except.error e)
    | HttpOutcome.response _s _raw d =>
        ([⟨"GET", c.BaseURL.resolveReference "/api/tags", Body.empty⟩], d))

/-- `ProcessStatus` from `proc_status.go`: one GET to `/api/ps`, decoded into
a `ModelProcessStatus` with no status-code inspection. -/
def Client.ProcessStatus (c : Client) (o : HttpOutcome ModelProcessStatus) :
    Client × List RequestRecord × Except String ModelProcessStatus :=
  (c,
    match o with
    | HttpOutcome.buildError e => ([], Except.error e)
    | HttpOutcome.doError e =>
        ([⟨"GET", c.BaseURL.resolveReference "/api/ps", Body.empty⟩], Except.error e)
    | HttpOutcome.response _s _raw d =>
        ([⟨"GET", c.BaseURL.resolveReference "/api/ps", Body.empty⟩], d))

/-- One call to any operation of the library, bundling the operation's
arguments with its observed transport outcome.  Used to state the frame and
determinism properties uniformly over every operation. -/
inductive OpCall where
  | pull : String → StreamOutcome → OpCall
  | push : String → StreamOutcome → OpCall
  | copy : String → String → StreamOutcome → OpCall
  | deleteModel : DeleteModelRequest → StreamOutcome → OpCall
  | createModel : CreateModelRequest → StreamOutcome → OpCall
  | generate : PromptInfo → HttpOutcome PromptResult → OpCall
  | chat : Chat → HttpOutcome ModelResponse → OpCall
  | embed : String → String → List (String × GoValue) → HttpOutcome EmbedResult → OpCall
  | fetchModelInfo : String → Bool → HttpOutcome ModelInfoResult → OpCall
  | checkBlobExists : String → RawOutcome → OpCall
  | pushBlob : String → String → RawOutcome → OpCall
  | version : HttpOutcome Version → OpCall
  | listModels : HttpOutcome ModelList → OpCall
  | processStatus : HttpOutcome ModelProcessStatus → OpCall

/-- The result of an operation, one constructor per operation. -/
inductive OpReturn where
  | pull : Except String PullModelResult → OpReturn
  | push : Except String PushModelResult → OpReturn
  | copy : Except String CopyModelResult → OpReturn
  | deleteModel : Except String DeleteModelResult → OpReturn
  | createModel : Except String CreateModelResult → OpReturn
  | generate : Except String PromptResult → OpReturn
  | chat : Except String ModelResponse → OpReturn
  | embed : Except String EmbedResult → OpReturn
  | fetchModelInfo : Except String ModelInfoResult → OpReturn
  | checkBlobExists : Except String Bool → OpReturn
  | pushBlob : Option String → OpReturn
  | version : Except String Version → OpReturn
  | listModels : Except String ModelList → OpReturn
  | processStatus : Except String ModelProcessStatus → OpReturn

/-- Run one operation of the library on a client: the uniform entry point for
the whole API surface, returning the client as the method leaves it, the
requests issued, and the result. -/
def Client.dispatch (c : Client) : OpCall → Client × List RequestRecord × OpReturn
  | OpCall.pull model o =>
      let r := c.PullModel model o
      (r.1, r.2.1, OpReturn.pull r.2.2)
  | OpCall.push model o =>
      let r := c.PushModel model o
      (r.1, r.2.1, OpReturn.push r.2.2)
  | OpCall.copy source destination o =>
      let r := c.CopyModel source destination o
      (r.1, r.2.1, OpReturn.copy r.2.2)
  | OpCall.deleteModel req o =>
      let r := c.DeleteModel req o
      (r.1, r.2.1, OpReturn.deleteModel r.2.2)
  | OpCall.createModel req o =>
      let r := c.CreateModel req o
      (r.1, r.2.1, OpReturn.createModel r.2.2)
  | OpCall.generate req o =>
      let r := c.Generate req o
      (r.1, r.2.1, OpReturn.generate r.2.2)
  | OpCall.chat req o =>
      let r := c.Chat req o
      (r.1, r.2.1, OpReturn.chat r.2.2)
  | OpCall.embed model input options o =>
      let r := c.Embed model input options o
      (r.1, r.2.1, OpReturn.embed r.2.2)
  | OpCall.fetchModelInfo model verbose o =>
      let r := c.FetchModelInfo model verbose o
      (r.1, r.2.1, OpReturn.fetchModelInfo r.2.2)
  | OpCall.checkBlobExists digest o =>
      let r := c.CheckBlobExists digest o
      (r.1, r.2.1, OpReturn.checkBlobExists r.2.2)
  | OpCall.pushBlob digest file o =>
      let r := c.PushBlob digest file o
      (r.1, r.2.1, OpReturn.pushBlob r.2.2)
  | OpCall.version o =>
      let r := c.Version o
      (r.1, r.2.1, OpReturn.version r.2.2)
  | OpCall.listModels o =>
      let r := c.ListModels o
      (r.1, r.2.1, OpReturn.listModels r.2.2)
  | OpCall.processStatus o =>
      let r := c.ProcessStatus o
      (r.1, r.2.1, OpReturn.processStatus r.2.2)

/-- A sample base URL used by the concrete witnesses below. -/
def sampleURL : URL :=
  { scheme := "http", host := "localhost:11434", path := "" }

/-- A sample client (12-minute timeout) used by the concrete witnesses below. -/
def sampleClient : Client :=
  { BaseURL := sampleURL, HTTPClient := { timeout := 720000000000 } }

/-- A sample `PromptInfo` whose `Format` has an invalid dynamic type. -/
def sampleBadPrompt : PromptInfo :=
  { Model := "m", Prompt := "", Suffix := "", System := "", Template := "",
    Images := [], Format := some (GoValue.other "float64"), Options := [],
    Stream := none, Raw := none, KeepAlive := "", Context := none }

/-- On a stream whose items all decode, the loop collects exactly the first
`maxMessages - acc.length` statuses beyond the accumulator. -/
theorem statusLoop_map_ok (ss : List String) (acc : List String) :
    statusLoop (ss.map Except.ok) acc =
      Except.ok (acc ++ ss.take (maxMessages - acc.length)) := by
  induction ss generalizing acc with
  | nil => simp [statusLoop]
  | cons s rest ih =>
      by_cases h : acc.length < maxMessages
      · have h1 : maxMessages - acc.length = (maxMessages - (acc.length + 1)) + 1 := by omega
        have h2 : (acc ++ [s]).length = acc.length + 1 := by simp
        simp only [List.map_cons, statusLoop, if_pos h, ih, h2, h1, List.take_succ_cons]
        simp
      · have h0 : maxMessages - acc.length = 0 := by omega
        simp [statusLoop, h, h0]

/-- A fully decodable stream with fewer than `maxMessages` items is returned
whole with a single request on any 2xx status. -/
theorem sendStatusStream_allOk (c : Client) (method : String) (u : URL) (b : Body)
    (s : Nat) (raw : String) (ss : List String)
    (h1 : 200 ≤ s) (h2 : s < 300) (hlen : ss.length < maxMessages) :
    sendStatusStreamRequest c method u b (StreamOutcome.response s raw (ss.map Except.ok)) =
      ([⟨method, u, b⟩], Except.ok ss) := by
  have hcond : ¬ (s < 200 ∨ 300 ≤ s) := by omega
  have htake : ss.take (maxMessages - ([] : List String).length) = ss := by
    simp [List.take_of_length_le (Nat.le_of_lt hlen)]
  simp only [sendStatusStreamRequest, if_neg hcond, statusLoop_map_ok, htake,
    List.nil_append]
  rw [if_neg (by omega)]

/-- A fully decodable stream with at least `maxMessages` items makes the call
fail with the bound-exceeded error on any 2xx status. -/
theorem sendStatusStream_overflow (c : Client) (method : String) (u : URL) (b : Body)
    (s : Nat) (raw : String) (ss : List String)
    (h1 : 200 ≤ s) (h2 : s < 300) (hlen : maxMessages ≤ ss.length) :
    sendStatusStreamRequest c method u b (StreamOutcome.response s raw (ss.map Except.ok)) =
      ([⟨method, u, b⟩],
        Except.error "streaming response exceeded maximum allowed messages") := by
  have hcond : ¬ (s < 200 ∨ 300 ≤ s) := by omega
  simp only [sendStatusStreamRequest, if_neg hcond, statusLoop_map_ok, List.nil_append]
  rw [if_pos (by simp [List.length_take]; omega)]

/-- Whatever the outcome, a successful stream result holds fewer than
`maxMessages` messages: the final guard rules the boundary out. -/
theorem sendStatusStream_ok_lt (c : Client) (method : String) (u : URL) (b : Body)
    (o : StreamOutcome) (msgs : List String)
    (h : (sendStatusStreamRequest c method u b o).2 = Except.ok msgs) :
    msgs.length < maxMessages := by
  cases o with
  | buildError e => simp [sendStatusStreamRequest] at h
  | doError e => simp [sendStatusStreamRequest] at h
  | response s raw items =>
      simp only [sendStatusStreamRequest] at h
      split at h
      · simp at h
      · split at h
        · simp at h
        · split at h
          · simp at h
          · rename_i hguard
            cases h
            omega

/-- Every call through the stream helper issues at most one request, and any
request it issues is the given one. -/
theorem sendStatusStream_trace (c : Client) (method : String) (u : URL) (b : Body)
    (o : StreamOutcome) :
    (sendStatusStreamRequest c method u b o).1 = [] ∨
      (sendStatusStreamRequest c method u b o).1 = [⟨method, u, b⟩] := by
  cases o with
  | buildError e => exact Or.inl rfl
  | doError e => exact Or.inr rfl
  | response s raw items => exact Or.inr rfl

/-- The spec's wording for an accepted `Format`: nil, a string, or a
`map[string]interface\x7b\x7d`. -/
def FormatAccepted (v : Option GoValue) : Prop :=
  v = none ∨ (∃ s, v = some (GoValue.str s)) ∨ (∃ m, v = some (GoValue.strMap m))

/-- The spec's wording for an accepted `Context`: nil, a `[]int`, or a
`[]interface\x7b\x7d` all of whose elements have dynamic type `int`. -/
def ContextAccepted (v : Option GoValue) : Prop :=
  v = none ∨ (∃ l, v = some (GoValue.intSlice l)) ∨
    (∃ vs, v = some (GoValue.anySlice vs) ∧ ∀ x ∈ vs, ∃ n, x = GoValue.int n)

theorem checkContextElems_eq_none (vs : List GoValue) (i : Nat) :
    checkContextElems vs i = none ↔ ∀ x ∈ vs, ∃ n, x = GoValue.int n := by
  induction vs generalizing i with
  | nil => simp [checkContextElems]
  | cons v rest ih => cases v <;> simp [checkContextElems, ih]

theorem checkFormat_eq_none (v : Option GoValue) :
    checkFormat v = none ↔ FormatAccepted v := by
  cases v with
  | none => simp [checkFormat, FormatAccepted]
  | some g => cases g <;> simp [checkFormat, FormatAccepted]

theorem checkContext_eq_none (v : Option GoValue) :
    checkContext v = none ↔ ContextAccepted v := by
  cases v with
  | none => simp [checkContext, ContextAccepted]
  | some g => cases g <;> simp [checkContext, ContextAccepted, checkContextElems_eq_none]

theorem validate_eq_none (req : PromptInfo) :
    req.ValidatePromptInfo = none ↔
      checkFormat req.Format = none ∧ checkContext req.Context = none := by
  unfold PromptInfo.ValidatePromptInfo
  cases hf : checkFormat req.Format <;> simp

/-- C1 (amended): for every 2xx response whose body is a fully decodable
sequence of JSON objects, `sendStatusStreamRequest` (used by PullModel,
PushModel, CopyModel, DeleteModel and CreateModel) collects one status string
per object and enforces the bound `maxMessages = 1000`: it returns the
statuses when fewer than 1000 objects are present, returns an error as soon
as the message count reaches (not merely exceeds) 1000, and every successful
result holds fewer than 1000 status messages. -/
theorem C1_stream_bound_amended :
    (∀ (c : Client) (method : String) (u : URL) (b : Body) (s : Nat) (raw : String)
        (ss : List String), 200 ≤ s → s < 300 → ss.length < maxMessages →
        sendStatusStreamRequest c method u b
            (StreamOutcome.response s raw (ss.map Except.ok)) =
          ([⟨method, u, b⟩], Except.ok ss)) ∧
    (∀ (c : Client) (method : String) (u : URL) (b : Body) (s : Nat) (raw : String)
        (ss : List String), 200 ≤ s → s < 300 → maxMessages ≤ ss.length →
        sendStatusStreamRequest c method u b
            (StreamOutcome.response s raw (ss.map Except.ok)) =
          ([⟨method, u, b⟩],
            Except.error "streaming response exceeded maximum allowed messages")) ∧
    (∀ (c : Client) (method : String) (u : URL) (b : Body) (o : StreamOutcome)
        (msgs : List String),
        (sendStatusStreamRequest c method u b o).2 = Except.ok msgs →
        msgs.length < maxMessages) :=
  ⟨sendStatusStream_allOk, sendStatusStream_overflow, sendStatusStream_ok_lt⟩

/-- C1 witness: a concrete 2xx stream of three decodable status objects is
returned whole by the bounded reader. -/
theorem C1_stream_bound_witness :
    sendStatusStreamRequest sampleClient "POST" sampleURL Body.empty
        (StreamOutcome.response 200 "" (["a", "b", "c"].map Except.ok)) =
      ([⟨"POST", sampleURL, Body.empty⟩], Except.ok ["a", "b", "c"]) :=
  C1_stream_bound_amended.1 sampleClient "POST" sampleURL Body.empty 200 "" ["a", "b", "c"]
    (by omega) (by omega) (by decide)

/-- C1 counterexample: the claim says an error occurs exactly when the stream's
message count exceeds the maximum allowed (1000), but a 2xx stream of exactly
1000 decodable status objects — a count that does not exceed 1000 — already
makes `sendStatusStreamRequest` return the bound error instead of the statuses. -/
theorem C1_stream_bound_counterexample :
    (List.replicate maxMessages "pulling").length = maxMessages ∧
    ¬ maxMessages > maxMessages ∧
    (sendStatusStreamRequest sampleClient "POST" sampleURL Body.empty
        (StreamOutcome.response 200 ""
          ((List.replicate maxMessages "pulling").map Except.ok))).2 =
      Except.error "streaming response exceeded maximum allowed messages" := by
  refine ⟨by simp, by omega, ?_⟩
  rw [sendStatusStream_overflow sampleClient "POST" sampleURL Body.empty 200 ""
    (List.replicate maxMessages "pulling") (by omega) (by omega) (by simp)]

/-- C2: `Generate` validates before sending — a `PromptInfo` rejected by
`ValidatePromptInfo` yields the validation error with no HTTP request issued —
and `ValidatePromptInfo` returns nil exactly when `Format` is nil, a string or
a string-keyed map, and `Context` is nil, an int slice, or an any-slice all of
whose elements have dynamic type int. -/
theorem C2_generate_validation :
    (∀ req : PromptInfo,
        req.ValidatePromptInfo = none ↔
          FormatAccepted req.Format ∧ ContextAccepted req.Context) ∧
    (∀ (c : Client) (req : PromptInfo) (o : HttpOutcome PromptResult) (e : String),
        req.ValidatePromptInfo = some e →
        c.Generate req o = (c, [], Except.error e)) := by
  constructor
  · intro req
    rw [validate_eq_none, checkFormat_eq_none, checkContext_eq_none]
  · intro c req o e h
    simp [Client.Generate, h]

/-- C2 witness: a `PromptInfo` whose `Format` holds a `float64` is rejected by
`Generate` with the format error and no request is issued. -/
theorem C2_generate_validation_witness :
    sampleClient.Generate sampleBadPrompt (HttpOutcome.doError "boom") =
      (sampleClient, [],
        Except.error
          "invalid type for Format field; must be string or map[string]interface\x7b\x7d") :=
  C2_generate_validation.2 sampleClient sampleBadPrompt (HttpOutcome.doError "boom") _ rfl

/-- C3: `sendRequest` turns every response with status outside [200, 300) into
an error whose message carries the raw response body, while `sendChatRequest`,
`sendShowRequest` and `sendEmbedRequest` never inspect the status code: any
response whose body decodes is returned as a success whatever the status. -/
theorem C3_status_code_handling :
    (∀ (c : Client) (method : String) (u : URL) (b : Body) (s : Nat) (raw : String)
        (d : Except String PromptResult), s < 200 ∨ 300 ≤ s →
        sendRequest c method u b (HttpOutcome.response s raw d) =
          ([⟨method, u, b⟩],
            Except.error ("HTTP request failed with status " ++ toString s ++ ": " ++ raw))) ∧
    (∀ (c : Client) (method : String) (u : URL) (b : Body) (s : Nat) (raw : String)
        (v : ModelResponse),
        sendChatRequest c method u b (HttpOutcome.response s raw (Except.ok v)) =
          ([⟨method, u, b⟩], Except.ok v)) ∧
    (∀ (c : Client) (method : String) (u : URL) (b : Body) (s : Nat) (raw : String)
        (v : ModelInfoResult),
        sendShowRequest c method u b (HttpOutcome.response s raw (Except.ok v)) =
          ([⟨method, u, b⟩], Except.ok v)) ∧
    (∀ (c : Client) (method : String) (u : URL) (b : Body) (s : Nat) (raw : String)
        (v : EmbedResult),
        sendEmbedRequest c method u b (HttpOutcome.response s raw (Except.ok v)) =
          ([⟨method, u, b⟩], Except.ok v)) := by
  refine ⟨?_, fun _ _ _ _ _ _ _ => rfl, fun _ _ _ _ _ _ _ => rfl,
    fun _ _ _ _ _ _ _ => rfl⟩
  intro c method u b s raw d h
  simp [sendRequest, if_pos h]

/-- C3 witness: a 500 response makes `sendRequest` fail with the body in the
message, while the same 500 response with a decodable body is a success for
`sendChatRequest`. -/
theorem C3_status_code_handling_witness :
    sendRequest sampleClient "POST" sampleURL Body.empty
        (HttpOutcome.response 500 "boom" (Except.error "x")) =
      ([⟨"POST", sampleURL, Body.empty⟩],
        Except.error ("HTTP request failed with status " ++ toString 500 ++ ": " ++ "boom")) :=
  C3_status_code_handling.1 sampleClient "POST" sampleURL Body.empty 500 "boom"
    (Except.error "x") (by omega)

/-- The single request `PullModel` sends. -/
def pullRequestRecord (c : Client) (model : String) : RequestRecord :=
  ⟨"POST", c.BaseURL.resolveReference "/api/pull",
    Body.json (Json.obj [("model", Json.str model)])⟩

/-- The single request `CopyModel` sends (map keys in Go marshal order). -/
def copyRequestRecord (c : Client) (source destination : String) : RequestRecord :=
  ⟨"POST", c.BaseURL.resolveReference "/api/copy",
    Body.json (Json.obj [("destination", Json.str destination), ("source", Json.str source)])⟩

/-- The single request `CreateModel` sends. -/
def createRequestRecord (c : Client) (req : CreateModelRequest) : RequestRecord :=
  ⟨"POST", c.BaseURL.resolveReference "/api/create", Body.ofCreate req⟩

/-- C4: each lifecycle operation issues at most the one fixed POST resolved
from `BaseURL` — `PullModel` to `/api/pull` with body `\x7b"model": model\x7d`,
`CopyModel` to `/api/copy` with the source/destination object, `CreateModel`
to `/api/create` with the JSON-encoded `CreateModelRequest` — and on a 2xx
decodable response of fewer than `maxMessages` statuses it issues exactly that
request and returns the decoded status messages unchanged in its result struct. -/
theorem C4_lifecycle_single_request :
    (∀ (c : Client) (model : String) (o : StreamOutcome),
        (c.PullModel model o).2.1 = [] ∨
          (c.PullModel model o).2.1 = [pullRequestRecord c model]) ∧
    (∀ (c : Client) (model : String) (s : Nat) (raw : String) (ss : List String),
        200 ≤ s → s < 300 → ss.length < maxMessages →
        c.PullModel model (StreamOutcome.response s raw (ss.map Except.ok)) =
          (c, [pullRequestRecord c model], Except.ok { StatusMessages := ss })) ∧
    (∀ (c : Client) (source destination : String) (o : StreamOutcome),
        (c.CopyModel source destination o).2.1 = [] ∨
          (c.CopyModel source destination o).2.1 = [copyRequestRecord c source destination]) ∧
    (∀ (c : Client) (source destination : String) (s : Nat) (raw : String) (ss : List String),
        200 ≤ s → s < 300 → ss.length < maxMessages →
        c.CopyModel source destination (StreamOutcome.response s raw (ss.map Except.ok)) =
          (c, [copyRequestRecord c source destination], Except.ok { StatusMessages := ss })) ∧
    (∀ (c : Client) (req : CreateModelRequest) (o : StreamOutcome),
        (c.CreateModel req o).2.1 = [] ∨
          (c.CreateModel req o).2.1 = [createRequestRecord c req]) ∧
    (∀ (c : Client) (req : CreateModelRequest) (s : Nat) (raw : String) (ss : List String),
        200 ≤ s → s < 300 → ss.length < maxMessages →
        c.CreateModel req (StreamOutcome.response s raw (ss.map Except.ok)) =
          (c, [createRequestRecord c req], Except.ok { StatusMessages := ss })) := by
  refine ⟨?_, ?_, ?_, ?_, ?_, ?_⟩
  · intro c model o
    rcases sendStatusStream_trace c "POST" (c.BaseURL.resolveReference "/api/pull")
      (Body.json (Json.obj [("model", Json.str model)])) o with h | h
    · exact Or.inl (by simp [Client.PullModel, h])
    · exact Or.inr (by simp [Client.PullModel, h, pullRequestRecord])
  · intro c model s raw ss h1 h2 h3
    have h := sendStatusStream_allOk c "POST" (c.BaseURL.resolveReference "/api/pull")
      (Body.json (Json.obj [("model", Json.str model)])) s raw ss h1 h2 h3
    simp [Client.PullModel, h, pullRequestRecord, Except.map]
  · intro c source destination o
    rcases sendStatusStream_trace c "POST" (c.BaseURL.resolveReference "/api/copy")
      (Body.json (Json.obj [("destination", Json.str destination),
        ("source", Json.str source)])) o with h | h
    · exact Or.inl (by simp [Client.CopyModel, h])
    · exact Or.inr (by simp [Client.CopyModel, h, copyRequestRecord])
  · intro c source destination s raw ss h1 h2 h3
    have h := sendStatusStream_allOk c "POST" (c.BaseURL.resolveReference "/api/copy")
      (Body.json (Json.obj [("destination", Json.str destination),
        ("source", Json.str source)])) s raw ss h1 h2 h3
    simp [Client.CopyModel, h, copyRequestRecord, Except.map]
  · intro c req o
    rcases sendStatusStream_trace c "POST" (c.BaseURL.resolveReference "/api/create")
      (Body.ofCreate req) o with h | h
    · exact Or.inl (by simp [Client.CreateModel, h])
    · exact Or.inr (by simp [Client.CreateModel, h, createRequestRecord])
  · intro c req s raw ss h1 h2 h3
    have h := sendStatusStream_allOk c "POST" (c.BaseURL.resolveReference "/api/create")
      (Body.ofCreate req) s raw ss h1 h2 h3
    simp [Client.CreateModel, h, createRequestRecord, Except.map]

/-- C4 witness: a concrete pull of model `llama` against a 2xx one-message
stream issues the single POST to `/api/pull` and returns the message. -/
theorem C4_lifecycle_single_request_witness :
    sampleClient.PullModel "llama" (StreamOutcome.response 200 "" (["done"].map Except.ok)) =
      (sampleClient, [pullRequestRecord sampleClient "llama"],
        Except.ok { StatusMessages := ["done"] }) :=
  C4_lifecycle_single_request.2.1 sampleClient "llama" 200 "" ["done"]
    (by omega) (by omega) (by decide)

/-- The single request `CheckBlobExists` sends for a digest it accepts. -/
def blobHeadRequest (c : Client) (digest : String) : RequestRecord :=
  ⟨"HEAD", c.BaseURL.resolveReference ("/api/blobs/" ++ pathEscape digest), Body.empty⟩

/-- C5: `CheckBlobExists` rejects digests containing `/` or `..` with an error
and no HTTP request; any other digest triggers at most one HEAD request to
`/api/blobs/` followed by the path-escaped digest, with status 200 mapped to
`(true, nil)`, 404 to `(false, nil)` and every other status to an error. -/
theorem C5_check_blob_exists :
    (∀ (c : Client) (digest : String) (o : RawOutcome),
        (strContains digest "/" || strContains digest "..") = true →
        c.CheckBlobExists digest o = (c, [], Except.error ("invalid digest: " ++ digest))) ∧
    (∀ (c : Client) (digest : String) (o : RawOutcome),
        (strContains digest "/" || strContains digest "..") = false →
        (c.CheckBlobExists digest o).2.1 = [] ∨
          (c.CheckBlobExists digest o).2.1 = [blobHeadRequest c digest]) ∧
    (∀ (c : Client) (digest : String) (raw : String),
        (strContains digest "/" || strContains digest "..") = false →
        c.CheckBlobExists digest (RawOutcome.response 200 raw) =
          (c, [blobHeadRequest c digest], Except.ok true)) ∧
    (∀ (c : Client) (digest : String) (raw : String),
        (strContains digest "/" || strContains digest "..") = false →
        c.CheckBlobExists digest (RawOutcome.response 404 raw) =
          (c, [blobHeadRequest c digest], Except.ok false)) ∧
    (∀ (c : Client) (digest : String) (s : Nat) (raw : String),
        (strContains digest "/" || strContains digest "..") = false →
        s ≠ 200 → s ≠ 404 →
        c.CheckBlobExists digest (RawOutcome.response s raw) =
          (c, [blobHeadRequest c digest],
            Except.error ("unexpected status code: " ++ toString s))) := by
  refine ⟨?_, ?_, ?_, ?_, ?_⟩
  · intro c digest o h
    simp [Client.CheckBlobExists, h]
  · intro c digest o h
    cases o with
    | buildError e => exact Or.inl (by simp [Client.CheckBlobExists, h])
    | doError e => exact Or.inr (by simp [Client.CheckBlobExists, h, blobHeadRequest])
    | response s raw => exact Or.inr (by simp [Client.CheckBlobExists, h, blobHeadRequest])
  · intro c digest raw h
    simp [Client.CheckBlobExists, h, blobHeadRequest]
  · intro c digest raw h
    simp [Client.CheckBlobExists, h, blobHeadRequest]
  · intro c digest s raw h hs1 hs2
    simp [Client.CheckBlobExists, h, blobHeadRequest, hs1, hs2]

/-- C5 witness: the digest `sha256:abc` is accepted, and a 500 status maps to
the unexpected-status error after exactly one HEAD request. -/
theorem C5_check_blob_exists_witness :
    sampleClient.CheckBlobExists "sha256:abc" (RawOutcome.response 500 "") =
      (sampleClient, [blobHeadRequest sampleClient "sha256:abc"],
        Except.error ("unexpected status code: " ++ toString 500)) :=
  C5_check_blob_exists.2.2.2.2 sampleClient "sha256:abc" 500 ""
    (by decide) (by omega) (by omega)

/-- C6: each status query issues one GET with nil body to its fixed endpoint
resolved against `BaseURL` (`Version` to `/api/version`, `ListModels` to
`/api/tags`, `ProcessStatus` to `/api/ps`) and returns exactly the JSON-decode
outcome of the response body, so the call errs precisely when request
construction, the transport, or decoding fails. -/
theorem C6_status_queries :
    (∀ (c : Client) (s : Nat) (raw : String) (d : Except String Version),
        c.Version (HttpOutcome.response s raw d) =
          (c, [⟨"GET", c.BaseURL.resolveReference "/api/version", Body.empty⟩], d)) ∧
    (∀ (c : Client) (e : String),
        c.Version (HttpOutcome.buildError e) = (c, [], Except.error e)) ∧
    (∀ (c : Client) (e : String),
        c.Version (HttpOutcome.doError e) =
          (c, [⟨"GET", c.BaseURL.resolveReference "/api/version", Body.empty⟩],
            Except.error e)) ∧
    (∀ (c : Client) (s : Nat) (raw : String) (d : Except String ModelList),
        c.ListModels (HttpOutcome.response s raw d) =
          (c, [⟨"GET", c.BaseURL.resolveReference "/api/tags", Body.empty⟩], d)) ∧
    (∀ (c : Client) (e : String),
        c.ListModels (HttpOutcome.buildError e) = (c, [], Except.error e)) ∧
    (∀ (c : Client) (e : String),
        c.ListModels (HttpOutcome.doError e) =
          (c, [⟨"GET", c.BaseURL.resolveReference "/api/tags", Body.empty⟩],
            Except.error e)) ∧
    (∀ (c : Client) (s : Nat) (raw : String) (d : Except String ModelProcessStatus),
        c.ProcessStatus (HttpOutcome.response s raw d) =
          (c, [⟨"GET", c.BaseURL.resolveReference "/api/ps", Body.empty⟩], d)) ∧
    (∀ (c : Client) (e : String),
        c.ProcessStatus (HttpOutcome.buildError e) = (c, [], Except.error e)) ∧
    (∀ (c : Client) (e : String),
        c.ProcessStatus (HttpOutcome.doError e) =
          (c, [⟨"GET", c.BaseURL.resolveReference "/api/ps", Body.empty⟩],
            Except.error e)) :=
  ⟨fun _ _ _ _ => rfl, fun _ _ => rfl, fun _ _ => rfl,
    fun _ _ _ _ => rfl, fun _ _ => rfl, fun _ _ => rfl,
    fun _ _ _ _ => rfl, fun _ _ => rfl, fun _ _ => rfl⟩

/-- C7: no operation mutates the client: for every call of every operation,
the `Client` (its `BaseURL` and `HTTPClient` fields) after the call is the
client before the call. -/
theorem C7_client_unchanged : ∀ (c : Client) (op : OpCall), (c.dispatch op).1 = c := by
  intro c op
  cases op <;> rfl

/-- C8: every operation is a deterministic function of the client
configuration, the call arguments and the observed server behaviour: equal
inputs produce equal requests and equal results. -/
theorem C8_deterministic :
    ∀ (c c' : Client) (op op' : OpCall), c = c' → op = op' →
      c.dispatch op = c'.dispatch op' := by
  intro c c' op op' h1 h2
  rw [h1, h2]

/-- C8 witness: two identical version calls on the same client agree. -/
theorem C8_deterministic_witness :
    sampleClient.dispatch (OpCall.version (HttpOutcome.doError "x")) =
      sampleClient.dispatch (OpCall.version (HttpOutcome.doError "x")) :=
  C8_deterministic sampleClient sampleClient _ _ rfl rfl

/-- C9: the chat operation is a single public method on the client mapping to
one POST to the chat endpoint; a response whose JSON body decodes into a
`ModelResponse` is returned to the caller as a success. -/
theorem C9_chat_inference :
    (∀ (c : Client) (req : Chat) (s : Nat) (raw : String) (v : ModelResponse),
        c.Chat req (HttpOutcome.response s raw (Except.ok v)) =
          (c, [⟨"POST", c.BaseURL.resolveReference "/api/chat", Body.ofChat req⟩],
            Except.ok v)) ∧
    (∀ (c : Client) (req : Chat) (o : HttpOutcome ModelResponse),
        (c.Chat req o).2.1 = [] ∨
          (c.Chat req o).2.1 =
            [⟨"POST", c.BaseURL.resolveReference "/api/chat", Body.ofChat req⟩]) := by
  refine ⟨fun _ _ _ _ _ => rfl, ?_⟩
  intro c req o
  cases o with
  | buildError e => exact Or.inl rfl
  | doError e => exact Or.inr rfl
  | response s raw d => exact Or.inr rfl

/-- C10: `NewClient` fails exactly when the base URL fails to parse; otherwise
the client's `BaseURL` is the parsed URL and its HTTP timeout is the `minutes`
argument multiplied by `time.Minute` — so passing 12 yields a 12-minute
timeout. -/
theorem C10_new_client :
    (∀ (e : String) (m : Int), NewClient (Except.error e) m = Except.error e) ∧
    (∀ (u : URL) (m : Int),
        NewClient (Except.ok u) m =
          Except.ok { BaseURL := u, HTTPClient := { timeout := int64Mul m timeMinute } }) ∧
    NewClient (Except.ok sampleURL) 12 =
      Except.ok { BaseURL := sampleURL, HTTPClient := { timeout := 12 * timeMinute } } := by
  refine ⟨fun _ _ => rfl, fun _ _ => rfl, ?_⟩
  have h : int64Mul 12 timeMinute = 12 * timeMinute := by decide
  simp [NewClient, h]
